import Mathlib

/-
Shallow embedding of the rust-types TypeScript library: a Result type
(success-or-error container) and an Option type (optional-value container).

JavaScript runtime values are modelled by the inductive type `JSVal`.
The module-private sentinel `Symbol("EMPTY")` of src/result.ts is not a
`JSVal`: client code can never name it, so a slot typed `T | EMPTY` is
modelled by `Slot`, whose `EMPTY` constructor is the sentinel and whose
`val` constructor carries an ordinary JavaScript value.

A JavaScript method either returns a value or throws one; methods that
contain a `throw` statement are embedded as `Except JSVal _` (the error
component is the thrown value, `new Error(text)` becoming
`JSVal.errObj text`), and methods with no `throw` statement are embedded
as total functions.

A zero-argument callback, once run (or, for the asynchronous variant,
once settled), either completed normally with a value or raised one;
`Callback` records that observable outcome.
-/

/-- JavaScript runtime values, as far as this library observes them:
`undef` is `undefined`, `jsnull` is `null`, `errObj m` is an `Error`
whose stringification is `"Error: " ++ m`, and `obj id` is any other
object (stringifying to `"[object Object]"`). -/
inductive JSVal where
  | undef
  | jsnull
  | bool (b : Bool)
  | num (n : Int)
  | str (s : String)
  | errObj (m : String)
  | obj (id : Nat)
  deriving DecidableEq, Repr

/-- JavaScript string coercion `${v}` as used in the template literals of
`expect`. -/
def stringify : JSVal → String
  | JSVal.undef => "undefined"
  | JSVal.jsnull => "null"
  | JSVal.bool b => cond b "true" "false"
  | JSVal.num n => toString n
  | JSVal.str s => s
  | JSVal.errObj m => "Error: " ++ m
  | JSVal.obj _ => "[object Object]"

/-- A field of type `T | EMPTY` in src/result.ts: either the
module-private symbol sentinel or an ordinary JavaScript value. -/
inductive Slot where
  | EMPTY
  | val (v : JSVal)
  deriving DecidableEq, Repr

/-- The observable outcome of running a zero-argument callback: it
completed normally with a value, or it threw one. -/
inductive Callback where
  | ret (v : JSVal)
  | thr (f : JSVal)
  deriving DecidableEq, Repr

/-- The `Result` class of src/result.ts: private fields
`#value : T | EMPTY` and `#error : E | EMPTY`. -/
structure Result where
  value : Slot
  error : Slot
  deriving DecidableEq, Repr

/-- The getter `get ok()` of src/result.ts: returns `this.#value as T`
unconditionally (no throw, no check). -/
def Result.ok (r : Result) : Slot := r.value

/-- The getter `get err()` of src/result.ts: returns `this.#error as E`
unconditionally. -/
def Result.err (r : Result) : Slot := r.error

/-- `isOk()` of src/result.ts: `this.#value !== EMPTY`. -/
def Result.isOk (r : Result) : Bool := decide (r.value ≠ Slot.EMPTY)

/-- `isErr()` of src/result.ts: `this.#error !== EMPTY`. -/
def Result.isErr (r : Result) : Bool := decide (r.error ≠ Slot.EMPTY)

/-- `expect(msg)` of src/result.ts: if `this.#error !== EMPTY` it throws
`new Error(msg + " - " + this.#error)`, otherwise it returns
`this.#value as T`. -/
def Result.expect (r : Result) (msg : String) : Except JSVal Slot :=
  match r.error with
  | Slot.val e => Except.error (JSVal.errObj (msg ++ " - " ++ stringify e))
  | Slot.EMPTY => Except.ok r.value

/-- `unwrapOr(other)` of the documented Result variant
(src/unnamed/part_003, same representation as src/result.ts): if
`this.#error !== EMPTY` it returns `other`, otherwise
`this.#value as T`. -/
def Result.unwrapOr (r : Result) (other : JSVal) : Slot :=
  match r.error with
  | Slot.val _ => Slot.val other
  | Slot.EMPTY => r.value

/-- `Result.wrap(callback)` of src/result.ts: runs the callback inside
`try`; a normal completion builds `{value: result, error: EMPTY}`, a
thrown value `e` is caught and builds `{value: EMPTY, error: e}`. -/
def Result.wrap : Callback → Result
  | Callback.ret v => ⟨Slot.val v, Slot.EMPTY⟩
  | Callback.thr e => ⟨Slot.EMPTY, Slot.val e⟩

/-- `Result.wrapAsync(callback)` of src/result.ts: identical to `wrap`
except that the callback is awaited first; the settled outcome of the
asynchronous callback is the `Callback` argument. -/
def Result.wrapAsync : Callback → Result
  | Callback.ret v => ⟨Slot.val v, Slot.EMPTY⟩
  | Callback.thr e => ⟨Slot.EMPTY, Slot.val e⟩

/-- `Ok(value)` of src/result.ts: `{value, error: EMPTY}`. -/
def Ok (value : JSVal) : Result := ⟨Slot.val value, Slot.EMPTY⟩

/-- `Err(error)` of src/result.ts: `{value: EMPTY, error}`. -/
def Err (error : JSVal) : Result := ⟨Slot.EMPTY, Slot.val error⟩

namespace RustTypes

/-- The `Option` class of src/option.ts: private field
`#value : T | undefined | null`. -/
structure Option where
  value : JSVal
  deriving DecidableEq, Repr

/-- The getter `get some()` of src/option.ts: throws
`new Error("Option is None")` when `this.#value` is strictly equal to
`undefined` or to `null`, otherwise returns the stored value. -/
def Option.some (o : Option) : Except JSVal JSVal :=
  if o.value = JSVal.undef ∨ o.value = JSVal.jsnull then
    Except.error (JSVal.errObj "Option is None")
  else Except.ok o.value

/-- `isSome()` of src/option.ts: `this.#value !== undefined`. -/
def Option.isSome (o : Option) : Bool := decide (o.value ≠ JSVal.undef)

/-- `isNone()` of src/option.ts: `this.#value === undefined`. -/
def Option.isNone (o : Option) : Bool := decide (o.value = JSVal.undef)

/-- `expect(msg)` of src/option.ts: throws
`new Error(msg + " - Option is None")` when `this.#value` is strictly
equal to `undefined` or to `null`, otherwise returns the stored value. -/
def Option.expect (o : Option) (msg : String) : Except JSVal JSVal :=
  if o.value = JSVal.undef ∨ o.value = JSVal.jsnull then
    Except.error (JSVal.errObj (msg ++ " - Option is None"))
  else Except.ok o.value

/-- `Option.wrap(value)` of src/option.ts: `new Option(value)`. -/
def Option.wrap (value : JSVal) : Option := ⟨value⟩

end RustTypes

namespace Part000

/-- The `Result` class of the undefined-sentinel variant
(src/unnamed/part_000): optional private fields `#value?: T` and
`#error?: E`, absence of a slot being the value `undefined` itself. -/
structure Result where
  value : JSVal
  error : JSVal
  deriving DecidableEq, Repr

/-- The getter `get ok()` of part_000: returns `this.#value!`
unconditionally. -/
def Result.ok (r : Result) : JSVal := r.value

/-- The getter `get err()` of part_000: returns `this.#error!`
unconditionally. -/
def Result.err (r : Result) : JSVal := r.error

/-- `isOk()` of part_000: `this.#error === undefined`. -/
def Result.isOk (r : Result) : Bool := decide (r.error = JSVal.undef)

/-- `isErr()` of part_000: `this.#error !== undefined`. -/
def Result.isErr (r : Result) : Bool := decide (r.error ≠ JSVal.undef)

/-- `expect(msg)` of part_000: if `this.#error !== undefined` it throws
`new Error(msg + " - " + this.#error)`, otherwise it returns
`this.#value!`. -/
def Result.expect (r : Result) (msg : String) : Except JSVal JSVal :=
  if r.error ≠ JSVal.undef then
    Except.error (JSVal.errObj (msg ++ " - " ++ stringify r.error))
  else Except.ok r.value

/-- `Result.wrap(callback)` of part_000: a normal completion builds
`{value: result, error: undefined}`, a thrown value `e` builds
`{value: undefined, error: e}`. -/
def Result.wrap : Callback → Result
  | Callback.ret v => ⟨v, JSVal.undef⟩
  | Callback.thr e => ⟨JSVal.undef, e⟩

/-- `Ok(value)` of part_000: `{value, error: undefined}`. -/
def Ok (value : JSVal) : Result := ⟨value, JSVal.undef⟩

/-- `Err(error)` of part_000: `{value: undefined, error}`. -/
def Err (error : JSVal) : Result := ⟨JSVal.undef, error⟩

end Part000

/-- One observable slot reading matches across the two Result
implementations when a real payload is identical on both sides, and the
symbol sentinel of src/result.ts corresponds to the `undefined` marker
of part_000. -/
def slotObs : Slot → JSVal → Bool
  | Slot.EMPTY, w => decide (w = JSVal.undef)
  | Slot.val v, w => decide (w = v)

/-- The outcomes of `expect` match across the two Result
implementations: both throw the same error object, or both return
matching payloads. -/
def expectObs : Except JSVal Slot → Except JSVal JSVal → Bool
  | Except.ok s, Except.ok w => slotObs s w
  | Except.error a, Except.error b => decide (a = b)
  | _, _ => false

/-- A src/result.ts Result and a part_000 Result are observationally
equivalent for a message `msg`: `isOk`, `isErr` agree, the `ok` and
`err` accessors agree up to the own absent marker of each side, and
`expect msg` agrees. -/
def obsEquiv (r : Result) (u : Part000.Result) (msg : String) : Bool :=
  (r.isOk == u.isOk) && (r.isErr == u.isErr) &&
    slotObs r.ok u.ok && slotObs r.err u.err &&
    expectObs (r.expect msg) (u.expect msg)

/-- A Result satisfies the complementarity invariant: `isOk` is the
negation of `isErr`, and exactly one of the two slots holds the absent
sentinel. -/
def complementary (r : Result) : Prop :=
  r.isOk = !r.isErr ∧ (r.value = Slot.EMPTY ↔ r.error ≠ Slot.EMPTY)

/-- Claim C1: for every zero-argument callback, if it completes normally
with value `v` then `Result.wrap` of it returns an outcome equal to
`Ok v`, and if it raises any failure `f` (of any kind) then `Result.wrap`
returns an outcome equal to `Err f`; `Result.wrap` is a total function
into `Result`, so no failure propagates past the call to `wrap`. -/
theorem c1_wrap_captures (v f : JSVal) :
    Result.wrap (Callback.ret v) = Ok v ∧
    Result.wrap (Callback.thr f) = Err f :=
  ⟨rfl, rfl⟩

/-- Claim C2 (code bug, evaluated at the failing input `null`):
`Option.wrap(null)` reports `isNone() = false` and `isSome() = true`,
because `isNone`/`isSome` compare only against `undefined`; the claim —
and the example in the doc comment of src/option.ts itself — require
`isNone() = true` for the null-like input. For the unset-like input
`undefined` the claimed behaviour does hold. -/
theorem c2_isNone_null_divergence :
    RustTypes.Option.isNone (RustTypes.Option.wrap JSVal.jsnull) = false ∧
    RustTypes.Option.isSome (RustTypes.Option.wrap JSVal.jsnull) = true ∧
    RustTypes.Option.isNone (RustTypes.Option.wrap JSVal.undef) = true := by
  decide

/-- Claim C3: `expect msg` on a success outcome returns the held success
value without raising, and on an error outcome raises an Error whose
message is exactly the caller message, a space-hyphen-space separator,
and the stringified error. Every other operation of the type (`ok`,
`err`, `isOk`, `isErr`, `unwrapOr`, `wrap`, `wrapAsync`) is embedded as
a total function because its source contains no throw statement, so
`expect` is the sole operation that can raise. -/
theorem c3_expect_contract (v e : JSVal) (msg : String) :
    Result.expect (Ok v) msg = Except.ok (Slot.val v) ∧
    Result.expect (Err e) msg =
      Except.error (JSVal.errObj (msg ++ " - " ++ stringify e)) :=
  ⟨rfl, rfl⟩

/-- Claim C4: `Result.wrapAsync` agrees with `Result.wrap` on every
settled callback, and in particular returns `Ok v` when the asynchronous
callback resolves with `v` and `Err f` when it rejects or throws `f`;
being a total function, the failure never propagates to its caller. -/
theorem c4_wrapAsync_eq_wrap (c : Callback) (v f : JSVal) :
    Result.wrapAsync c = Result.wrap c ∧
    Result.wrapAsync (Callback.ret v) = Ok v ∧
    Result.wrapAsync (Callback.thr f) = Err f := by
  refine ⟨?_, rfl, rfl⟩
  cases c <;> rfl

/-- Claim C5: for every value `v` — the absent-like values `undefined`
and `null` included, since they are constructors of `JSVal` — `Ok v`
satisfies `isOk = true`, `isErr = false`, and its `ok` accessor returns
the stored `v`; symmetrically `Err e` satisfies `isErr = true`,
`isOk = false`, and its `err` accessor returns `e`. -/
theorem c5_constructors (v e : JSVal) :
    (Ok v).isOk = true ∧ (Ok v).isErr = false ∧ (Ok v).ok = Slot.val v ∧
    (Err e).isErr = true ∧ (Err e).isOk = false ∧ (Err e).err = Slot.val e := by
  refine ⟨?_, rfl, rfl, ?_, rfl, rfl⟩ <;>
    simp [Result.isOk, Result.isErr, Ok, Err]

/-- Claim C6: every Result produced by one of the construction paths
`Ok`, `Err`, `wrap`, `wrapAsync` satisfies the complementarity
invariant: `isOk` equals the negation of `isErr`, and exactly one of the
success slot and the error slot holds the absent sentinel. -/
theorem c6_complementary (v e : JSVal) (c : Callback) :
    complementary (Ok v) ∧ complementary (Err e) ∧
    complementary (Result.wrap c) ∧ complementary (Result.wrapAsync c) := by
  refine ⟨?_, ?_, ?_, ?_⟩
  · simp [complementary, Result.isOk, Result.isErr, Ok]
  · simp [complementary, Result.isOk, Result.isErr, Err]
  · cases c <;> simp [complementary, Result.isOk, Result.isErr, Result.wrap]
  · cases c <;>
      simp [complementary, Result.isOk, Result.isErr, Result.wrapAsync]

/-- Claim C7: `unwrapOr d` returns the held success value on a success
outcome and the supplied default `d` on an error outcome, for every
default and along every construction path; it is embedded as a total
function because its source contains no throw statement, so it never
raises. -/
theorem c7_unwrapOr (v e d : JSVal) :
    (Ok v).unwrapOr d = Slot.val v ∧
    (Err e).unwrapOr d = Slot.val d ∧
    (Result.wrap (Callback.ret v)).unwrapOr d = Slot.val v ∧
    (Result.wrap (Callback.thr e)).unwrapOr d = Slot.val d :=
  ⟨rfl, rfl, rfl, rfl⟩

/-- Claim C8 counterexample: on the absent Optional `Option.wrap
undefined`, the `some` accessor of src/option.ts does NOT silently
return an absent marker — it raises `Error("Option is None")`, so the
claim as stated is false at this input. -/
theorem c8_some_raises_cex :
    RustTypes.Option.some (RustTypes.Option.wrap JSVal.undef) =
      Except.error (JSVal.errObj "Option is None") :=
  rfl

/-- Claim C8 as amended: the Result accessors behave as claimed — for
every error `e`, the `ok` accessor of `Err e` evaluates without raising
and yields the absent sentinel, and for every value `v` the `err`
accessor of `Ok v` does likewise — but the `some` accessor of
src/option.ts raises `Error("Option is None")` on an absent Optional
(stored `undefined` or `null`) instead of silently returning a marker,
and returns the stored value otherwise. -/
theorem c8_amended_unchecked (e v u : JSVal) :
    (Err e).ok = Slot.EMPTY ∧
    (Ok v).err = Slot.EMPTY ∧
    RustTypes.Option.some (RustTypes.Option.wrap u) =
      (if u = JSVal.undef ∨ u = JSVal.jsnull then
        Except.error (JSVal.errObj "Option is None")
      else Except.ok u) :=
  ⟨rfl, rfl, rfl⟩

/-- Claim C9: `expect msg` on an Optional returns the stored value when
it is neither of the two absent-like sentinels `undefined` and `null`,
and otherwise raises an Error whose text is the caller message, a
space-hyphen-space separator, and the words Option is None. -/
theorem c9_option_expect (v : JSVal) (msg : String) :
    RustTypes.Option.expect (RustTypes.Option.wrap v) msg =
      (if v = JSVal.undef ∨ v = JSVal.jsnull then
        Except.error (JSVal.errObj (msg ++ " - Option is None"))
      else Except.ok v) :=
  rfl

/-- Claim C10 counterexample: for the construction path `wrap` of a
callback that throws `undefined` — a path the claim explicitly includes
— the two implementations disagree: the symbol-sentinel Result of
src/result.ts reports `isErr() = true` while the undefined-sentinel
variant of part_000 reports `isErr() = false` (and their observations
differ), so the claimed observational equivalence is false. -/
theorem c10_undef_throw_cex :
    (Result.wrap (Callback.thr JSVal.undef)).isErr = true ∧
    (Part000.Result.wrap (Callback.thr JSVal.undef)).isErr = false ∧
    obsEquiv (Result.wrap (Callback.thr JSVal.undef))
      (Part000.Result.wrap (Callback.thr JSVal.undef)) "m" = false := by
  decide

/-- Claim C10 as amended: the two Result implementations are
observationally equivalent — `isOk` and `isErr` agree, `ok` and `err`
agree up to the absent marker of each implementation, and `expect`
agrees for every message — on every construction path whose error, when
present, is not `undefined`: `Ok v` for all `v`, `wrap` of a normal
completion for all resolved values, `Err e` for `e ≠ undefined`, and
`wrap` of a thrown `f ≠ undefined`. -/
theorem c10_amended_equiv (v w e f : JSVal) (msg : String)
    (he : e ≠ JSVal.undef) (hf : f ≠ JSVal.undef) :
    obsEquiv (Ok v) (Part000.Ok v) msg = true ∧
    obsEquiv (Err e) (Part000.Err e) msg = true ∧
    obsEquiv (Result.wrap (Callback.ret w))
      (Part000.Result.wrap (Callback.ret w)) msg = true ∧
    obsEquiv (Result.wrap (Callback.thr f))
      (Part000.Result.wrap (Callback.thr f)) msg = true := by
  refine ⟨?_, ?_, ?_, ?_⟩ <;>
    simp [obsEquiv, slotObs, expectObs, Result.isOk, Result.isErr,
      Result.ok, Result.err, Result.expect, Result.wrap, Ok, Err,
      Part000.Result.isOk, Part000.Result.isErr, Part000.Result.ok,
      Part000.Result.err, Part000.Result.expect, Part000.Result.wrap,
      Part000.Ok, Part000.Err, he, hf]

/-- Witness for c10_amended_equiv at concrete inputs: the hypotheses
hold for the error string boom and the thrown number 7, and the
equivalence follows by the theorem. -/
theorem c10_amended_equiv_witness :
    (JSVal.str "boom" ≠ JSVal.undef) ∧ (JSVal.num 7 ≠ JSVal.undef) ∧
    (obsEquiv (Ok JSVal.undef) (Part000.Ok JSVal.undef) "m" = true ∧
     obsEquiv (Err (JSVal.str "boom"))
       (Part000.Err (JSVal.str "boom")) "m" = true ∧
     obsEquiv (Result.wrap (Callback.ret JSVal.undef))
       (Part000.Result.wrap (Callback.ret JSVal.undef)) "m" = true ∧
     obsEquiv (Result.wrap (Callback.thr (JSVal.num 7)))
       (Part000.Result.wrap (Callback.thr (JSVal.num 7))) "m" = true) :=
  ⟨by decide, by decide,
    c10_amended_equiv JSVal.undef JSVal.undef (JSVal.str "boom")
      (JSVal.num 7) "m" (by decide) (by decide)⟩
